import Mathlib

/-!
# nvcomp high-level-interface benchmark and Snappy batch manager

A shallow embedding of

* `benchmarks/benchmark_hlif.cpp`: `print_usage` and `main` (argument parsing, manager
  selection, benchmark run), as a pure function from the argument vector to the
  sequence of observable events and the exit status;
* `src/highlevel/SnappyBatchManager.hpp`: the constructor, the destructor,
  `compute_max_compressed_chunk_size`, the two occupancy queries, `get_format_header`,
  `do_batch_compress` and `do_batch_decompress`, as state-passing functions over an
  explicit record of the live pinned / device allocations.

Machine integers are `Int` / `Nat` with explicit wrap-around where a conversion happens.
-/

namespace Nvcomp

/-! ## Part 1: `benchmark_hlif.cpp` -/

/-- Element types. Only the enumerators that `benchmark_hlif.cpp` names are listed; the
declaration of the C enum is not part of the sources. -/
inductive nvcompType_t
  | NVCOMP_TYPE_CHAR
  | NVCOMP_TYPE_SHORT
  | NVCOMP_TYPE_INT
  | NVCOMP_TYPE_LONGLONG
  deriving DecidableEq, Repr

/-- Checksum modes (the tri-state of the manager contract). `main` only ever names
`NoComputeNoVerify`. -/
inductive ChecksumPolicy
  | NoComputeNoVerify
  | ComputeAndNoVerify
  | ComputeAndVerify
  deriving DecidableEq, Repr

/-- Stream handles are plain addresses. -/
abbrev cudaStream_t := Nat

/-- The fields of `nvcompBatchedCascadedOpts_t` that `main` reads or writes. -/
structure nvcompBatchedCascadedOpts_t where
  chunk_size : Int
  type : nvcompType_t
  num_RLEs : Int
  num_deltas : Int
  use_bp : Int
  deriving DecidableEq, Repr

/-- What `main` takes from its surroundings: the constant
`nvcompBatchedCascadedDefaultOpts` (declared in a header that is not part of the
sources) and the handle that `cudaStreamCreate` stores into `stream`. -/
structure Env where
  nvcompBatchedCascadedDefaultOpts : nvcompBatchedCascadedOpts_t
  stream : cudaStream_t
  deriving DecidableEq, Repr

/-! ### `atoi` -/

/-- C `isspace` in the "C" locale: space, and the controls 9 to 13. -/
def isspace (c : Char) : Bool :=
  c.toNat == 32 || (9 ≤ c.toNat && c.toNat ≤ 13)

/-- C `isdigit`. -/
def isdigit (c : Char) : Bool :=
  48 ≤ c.toNat && c.toNat ≤ 57

/-- The value of the longest prefix of decimal digits, continuing from `acc`. -/
def atoiDigits : Nat → List Char → Nat
  | acc, [] => acc
  | acc, c :: cs => if isdigit c then atoiDigits (acc * 10 + (c.toNat - 48)) cs else acc

/-- Conversion of a `long` to `int` on an LP64 machine: the low 32 bits, two's complement. -/
def wrapInt32 (z : Int) : Int :=
  (z + 2 ^ 31) % 2 ^ 32 - 2 ^ 31

/-- Saturation of `strtol` to the range of `long`. -/
def clampLong (z : Int) : Int :=
  if z < -(2 ^ 63) then -(2 ^ 63) else if 2 ^ 63 - 1 < z then 2 ^ 63 - 1 else z

/-- The sign and digits part of `atoi`, after the leading white space. -/
def atoiSigned : List Char → Int
  | [] => 0
  | c :: cs =>
    if c.toNat == 45 then -(Int.ofNat (atoiDigits 0 cs))
    else if c.toNat == 43 then Int.ofNat (atoiDigits 0 cs)
    else Int.ofNat (atoiDigits 0 (c :: cs))

/-- C library `atoi`, as `(int) strtol (s, NULL, 10)`: leading white space is skipped, an
optional sign is read, then the longest run of decimal digits; no digits give 0. A value
outside `long` saturates and the conversion to `int` keeps the low 32 bits (the C
standard leaves that case undefined). -/
def atoi (s : String) : Int :=
  wrapInt32 (clampLong (atoiSigned (s.toList.dropWhile isspace)))

/-! ### Events and outcomes -/

/-- The manager constructor calls of `main`, each with the arguments that `main` passes
(`chunk_size`, `gpu_num` and the cascaded fields are the `int` values of `main`). -/
inductive ManagerCall
  | LZ4Manager (chunk_size : Int) (data_type : nvcompType_t) (stream : cudaStream_t)
      (gpu_num : Int) (policy : ChecksumPolicy)
  | SnappyManager (chunk_size : Int) (stream : cudaStream_t) (gpu_num : Int)
      (policy : ChecksumPolicy)
  | BitcompManager (data_type : nvcompType_t) (algo : Int) (stream : cudaStream_t)
      (gpu_num : Int) (policy : ChecksumPolicy)
  | ANSManager (chunk_size : Int) (stream : cudaStream_t) (gpu_num : Int)
      (policy : ChecksumPolicy)
  | CascadedManager (cascaded_opts : nvcompBatchedCascadedOpts_t) (stream : cudaStream_t)
      (gpu_num : Int) (policy : ChecksumPolicy)
  | GdeflateManager (chunk_size : Int) (algo : Int) (stream : cudaStream_t)
      (gpu_num : Int) (policy : ChecksumPolicy)
  deriving DecidableEq, Repr

/-- The observable steps of `main`, in program order. -/
inductive Event
  | print_invalid_format
  | print_usage
  | cudaSetDevice (gpu_num : Int)
  | cudaStreamCreate
  | make_manager (call : ManagerCall)
  | run_benchmark_from_file (fname : String) (call : ManagerCall) (verbose_memory : Int)
      (stream : cudaStream_t) (num_iters : Int)
  | cudaStreamDestroy (stream : cudaStream_t)
  deriving DecidableEq, Repr

/-- How a run of `main` ends. `exited` carries the events and the exit status;
`null_argument` is the construction of a `std::string` from the null pointer that ends
`argv`; `past_argv` is a read beyond the argument array. The last two are undefined
behaviour. -/
inductive Outcome
  | exited (events : List Event) (status : Int)
  | null_argument
  | past_argv
  deriving DecidableEq, Repr

/-- The local variables of `main` that the option loop updates. `fname` is `none` for the
null pointer. -/
structure Locals where
  fname : Option String
  gpu_num : Int
  verbose_memory : Int
  num_iters : Int
  cascaded_opts : nvcompBatchedCascadedOpts_t
  chunk_size : Int
  data_type : nvcompType_t
  explicit_type : Bool
  explicit_chunk_size : Bool
  deriving DecidableEq, Repr

/-- The initial values of the locals (lines 67 to 82). -/
def Locals.init (env : Env) : Locals where
  fname := none
  gpu_num := 0
  verbose_memory := 0
  num_iters := 1
  cascaded_opts := env.nvcompBatchedCascadedDefaultOpts
  chunk_size := 2 ^ 16
  data_type := .NVCOMP_TYPE_CHAR
  explicit_type := false
  explicit_chunk_size := false

/-- The part of one loop iteration after `optarg` has been read (lines 121 to 172):
`some` is `continue` with the updated locals, `none` is `print_usage ()`. -/
def handleValueOption (st : Locals) (arg optarg : String) : Option Locals :=
  if arg = "--filename" ∨ arg = "-f" then
    some { st with fname := some optarg }
  else if arg = "--gpu" ∨ arg = "-g" then
    some { st with gpu_num := atoi optarg }
  else if arg = "--num-iters" ∨ arg = "-n" then
    some { st with num_iters := atoi optarg }
  else if arg = "--chunk-size" ∨ arg = "-c" then
    some { st with chunk_size := atoi optarg, explicit_chunk_size := true }
  else if arg = "--type" ∨ arg = "-t" then
    if optarg = "char" then
      some { st with explicit_type := true, data_type := .NVCOMP_TYPE_CHAR }
    else if optarg = "short" then
      some { st with explicit_type := true, data_type := .NVCOMP_TYPE_SHORT }
    else if optarg = "int" then
      some { st with explicit_type := true, data_type := .NVCOMP_TYPE_INT }
    else if optarg = "longlong" then
      some { st with explicit_type := true, data_type := .NVCOMP_TYPE_LONGLONG }
    else
      none
  else if arg = "--num_rles" ∨ arg = "-r" then
    some { st with cascaded_opts := { st.cascaded_opts with num_RLEs := atoi optarg } }
  else if arg = "--num_deltas" ∨ arg = "-d" then
    some { st with cascaded_opts := { st.cascaded_opts with num_deltas := atoi optarg } }
  else if arg = "--num_bps" ∨ arg = "-b" then
    some { st with cascaded_opts :=
      { st.cascaded_opts with use_bp := if atoi optarg ≠ 0 then 1 else 0 } }
  else
    none

/-- The option loop `while (argv != argv_end)` (lines 102 to 173) over the arguments that
are left: `some` is the locals at loop exit, `none` is a call of `print_usage`. -/
def parseOptions (st : Locals) : List String → Option Locals
  | [] => some st
  | [arg] =>
    if arg = "--help" ∨ arg = "-?" then none
    else if arg = "--memory" ∨ arg = "-m" then some { st with verbose_memory := 1 }
    else none
  | arg :: optarg :: rest =>
    if arg = "--help" ∨ arg = "-?" then none
    else if arg = "--memory" ∨ arg = "-m" then
      parseOptions { st with verbose_memory := 1 } (optarg :: rest)
    else
      match handleValueOption st arg optarg with
      | none => none
      | some st1 => parseOptions st1 rest

/-- The format test of lines 90 to 100. -/
def knownFormat (comp_format : String) : Bool :=
  comp_format = "lz4" ∨ comp_format = "snappy" ∨ comp_format = "bitcomp" ∨
    comp_format = "ans" ∨ comp_format = "cascaded" ∨ comp_format = "gdeflate"

/-- The manager selection of lines 185 to 209: `none` is the final `else` branch. -/
def selectManager (env : Env) (st : Locals) (comp_format : String) : Option ManagerCall :=
  if comp_format = "lz4" then
    some (.LZ4Manager st.chunk_size st.data_type env.stream st.gpu_num .NoComputeNoVerify)
  else if comp_format = "snappy" then
    some (.SnappyManager st.chunk_size env.stream st.gpu_num .NoComputeNoVerify)
  else if comp_format = "bitcomp" then
    some (.BitcompManager st.data_type 0 env.stream st.gpu_num .NoComputeNoVerify)
  else if comp_format = "ans" then
    some (.ANSManager st.chunk_size env.stream st.gpu_num .NoComputeNoVerify)
  else if comp_format = "cascaded" then
    let opts1 := if st.explicit_type then
      { st.cascaded_opts with type := st.data_type } else st.cascaded_opts
    let opts2 := if st.explicit_chunk_size then
      { opts1 with chunk_size := st.chunk_size } else opts1
    some (.CascadedManager opts2 env.stream st.gpu_num .NoComputeNoVerify)
  else if comp_format = "gdeflate" then
    some (.GdeflateManager st.chunk_size 0 env.stream st.gpu_num .NoComputeNoVerify)
  else
    none

/-- The run of `print_usage`: the usage text, then `exit (1)`, after the events `pre`. -/
def print_usage (pre : List Event) : Outcome :=
  .exited (pre ++ [.print_usage]) 1

/-- The function `main` on the argument vector `argv` (`argv[0]` is the program name and
`argv[argc]` is the null pointer), the device calls and the benchmark returning
normally. -/
def main (env : Env) (argv : List String) : Outcome :=
  match argv with
  | [] => .past_argv
  | [_] => .null_argument
  | _ :: comp_format :: rest =>
    if knownFormat comp_format then
      match parseOptions (Locals.init env) rest with
      | none => print_usage []
      | some st =>
        match st.fname with
        | none => print_usage []
        | some fname =>
          match selectManager env st comp_format with
          | none => print_usage [.cudaSetDevice st.gpu_num, .cudaStreamCreate]
          | some call =>
            .exited [.cudaSetDevice st.gpu_num, .cudaStreamCreate, .make_manager call,
              .run_benchmark_from_file fname call st.verbose_memory env.stream st.num_iters,
              .cudaStreamDestroy env.stream] 0
    else
      print_usage [.print_invalid_format]

/-! ### The command line as the usage text describes it -/

/-- The six format names. -/
inductive Format
  | lz4 | snappy | bitcomp | ans | cascaded | gdeflate
  deriving DecidableEq, Repr

/-- The spelling of a format on the command line. -/
def Format.name : Format → String
  | .lz4 => "lz4"
  | .snappy => "snappy"
  | .bitcomp => "bitcomp"
  | .ans => "ans"
  | .cascaded => "cascaded"
  | .gdeflate => "gdeflate"

/-- The manager variant of a constructor call. -/
def ManagerCall.format : ManagerCall → Format
  | .LZ4Manager .. => .lz4
  | .SnappyManager .. => .snappy
  | .BitcompManager .. => .bitcomp
  | .ANSManager .. => .ans
  | .CascadedManager .. => .cascaded
  | .GdeflateManager .. => .gdeflate

/-- The checksum mode a constructor call passes. -/
def ManagerCall.policy : ManagerCall → ChecksumPolicy
  | .LZ4Manager _ _ _ _ p => p
  | .SnappyManager _ _ _ p => p
  | .BitcompManager _ _ _ _ p => p
  | .ANSManager _ _ _ p => p
  | .CascadedManager _ _ _ p => p
  | .GdeflateManager _ _ _ _ p => p

/-- The uncompressed chunk size a constructor call configures: the chunk size argument,
the `chunk_size` field of the cascaded options, and nothing for `BitcompManager`, whose
call has no chunk size argument. -/
def ManagerCall.chunk_size? : ManagerCall → Option Int
  | .LZ4Manager c _ _ _ _ => some c
  | .SnappyManager c _ _ _ => some c
  | .BitcompManager .. => none
  | .ANSManager c _ _ _ => some c
  | .CascadedManager o _ _ _ => some o.chunk_size
  | .GdeflateManager c _ _ _ _ => some c

/-- The element type a constructor call passes, for the calls that take one. -/
def ManagerCall.data_type? : ManagerCall → Option nvcompType_t
  | .LZ4Manager _ t _ _ _ => some t
  | .BitcompManager t _ _ _ _ => some t
  | .CascadedManager o _ _ _ => some o.type
  | _ => none

/-- The spelling of an element type as a `--type` value. -/
def typeName : nvcompType_t → String
  | .NVCOMP_TYPE_CHAR => "char"
  | .NVCOMP_TYPE_SHORT => "short"
  | .NVCOMP_TYPE_INT => "int"
  | .NVCOMP_TYPE_LONGLONG => "longlong"

/-- The `--type` values that the option loop has a branch for. -/
def knownType (v : String) : Bool :=
  v = "char" ∨ v = "short" ∨ v = "int" ∨ v = "longlong"

/-- The `--type` values that the usage text lists. -/
def documentedType (v : String) : Bool :=
  v = "char" ∨ v = "short" ∨ v = "int"

/-- The option names that take a value. -/
def takesValue (arg : String) : Bool :=
  arg = "--filename" ∨ arg = "-f" ∨ arg = "--gpu" ∨ arg = "-g" ∨
  arg = "--num-iters" ∨ arg = "-n" ∨ arg = "--chunk-size" ∨ arg = "-c" ∨
  arg = "--type" ∨ arg = "-t" ∨ arg = "--num_rles" ∨ arg = "-r" ∨
  arg = "--num_deltas" ∨ arg = "-d" ∨ arg = "--num_bps" ∨ arg = "-b"

/-- The names of the options that configure a run: the memory flag and the options that
take a value. (`--help` and `-?` ask for the usage text and are not among them.) -/
def isOptionName (arg : String) : Bool :=
  arg = "--memory" ∨ arg = "-m" ∨ takesValue arg

/-- One complete, recognised option: the memory flag, or a value-taking option with its
value (for `--type`, one of the values the loop has a branch for). `long` selects the
long spelling. -/
inductive CliOption
  | memory (long : Bool)
  | filename (long : Bool) (value : String)
  | gpu (long : Bool) (value : String)
  | num_iters (long : Bool) (value : String)
  | chunk_size (long : Bool) (value : String)
  | type (long : Bool) (value : nvcompType_t)
  | num_rles (long : Bool) (value : String)
  | num_deltas (long : Bool) (value : String)
  | num_bps (long : Bool) (value : String)
  deriving DecidableEq, Repr

/-- The arguments that spell one option. -/
def CliOption.render : CliOption → List String
  | .memory l => [if l then "--memory" else "-m"]
  | .filename l v => [if l then "--filename" else "-f", v]
  | .gpu l v => [if l then "--gpu" else "-g", v]
  | .num_iters l v => [if l then "--num-iters" else "-n", v]
  | .chunk_size l v => [if l then "--chunk-size" else "-c", v]
  | .type l t => [if l then "--type" else "-t", typeName t]
  | .num_rles l v => [if l then "--num_rles" else "-r", v]
  | .num_deltas l v => [if l then "--num_deltas" else "-d", v]
  | .num_bps l v => [if l then "--num_bps" else "-b", v]

/-- The arguments that spell a sequence of options. -/
def renderAll : List CliOption → List String
  | [] => []
  | o :: os => o.render ++ renderAll os

/-- The value of the last option that `sel` selects. -/
def lastValue {α : Type} (sel : CliOption → Option α) : List CliOption → Option α
  | [] => none
  | o :: os =>
    match lastValue sel os with
    | some v => some v
    | none => sel o

/-- Selector of `-f` / `--filename`. -/
def selFilename : CliOption → Option String
  | .filename _ v => some v
  | _ => none

/-- Selector of `-g` / `--gpu`. -/
def selGpu : CliOption → Option String
  | .gpu _ v => some v
  | _ => none

/-- Selector of `-n` / `--num-iters`. -/
def selIters : CliOption → Option String
  | .num_iters _ v => some v
  | _ => none

/-- Selector of `-c` / `--chunk-size`. -/
def selChunk : CliOption → Option String
  | .chunk_size _ v => some v
  | _ => none

/-- Selector of `-t` / `--type`. -/
def selType : CliOption → Option nvcompType_t
  | .type _ t => some t
  | _ => none

/-- Selector of `-m` / `--memory`. -/
def selMemory : CliOption → Option Unit
  | .memory _ => some ()
  | _ => none

/-- The device number the options ask for (default 0). -/
def gpuOf (opts : List CliOption) : Int :=
  match lastValue selGpu opts with
  | some v => atoi v
  | none => 0

/-- The iteration count the options ask for (default 1). -/
def itersOf (opts : List CliOption) : Int :=
  match lastValue selIters opts with
  | some v => atoi v
  | none => 1

/-- The verbosity the options ask for (default 0). -/
def verboseOf (opts : List CliOption) : Int :=
  match lastValue selMemory opts with
  | some _ => 1
  | none => 0

/-- The chunk size the options ask for (default 64 kB). -/
def chunkOf (opts : List CliOption) : Int :=
  match lastValue selChunk opts with
  | some v => atoi v
  | none => 65536

/-- The element type the options ask for (default `char`). -/
def typeOf (opts : List CliOption) : nvcompType_t :=
  match lastValue selType opts with
  | some t => t
  | none => .NVCOMP_TYPE_CHAR

/-- The run prints the usage text last, exits with status 1 and constructs no manager. -/
def Outcome.usageExit : Outcome → Bool
  | .exited events status =>
    status == 1 && events.getLast? == some .print_usage &&
      events.all fun e => match e with
        | .make_manager _ => false
        | _ => true
  | _ => false

/-- The managers a run constructs. -/
def Outcome.managers : Outcome → List ManagerCall
  | .exited events _ => events.filterMap fun e => match e with
      | .make_manager c => some c
      | _ => none
  | _ => []

/-- The invalid argument vectors (the arguments after the program name): an unknown
format; after complete options, an argument that is no option name; after complete
options, a value-taking option as the last argument; after complete options, `--type`
with a value the loop has no branch for; complete options without a filename. -/
inductive InvalidArgs : List String → Prop
  | bad_format (fmt : String) (rest : List String) :
      knownFormat fmt = false → InvalidArgs (fmt :: rest)
  | unknown_option (fmt : String) (pre : List CliOption) (bad : String) (rest : List String) :
      isOptionName bad = false → InvalidArgs (fmt :: (renderAll pre ++ bad :: rest))
  | missing_value (fmt : String) (pre : List CliOption) (opt : String) :
      takesValue opt = true → InvalidArgs (fmt :: (renderAll pre ++ [opt]))
  | bad_type (fmt : String) (pre : List CliOption) (opt value : String) (rest : List String) :
      (opt = "--type" ∨ opt = "-t") → knownType value = false →
      InvalidArgs (fmt :: (renderAll pre ++ opt :: value :: rest))
  | no_filename (fmt : String) (pre : List CliOption) :
      lastValue selFilename pre = none → InvalidArgs (fmt :: renderAll pre)

/-- The effect of one complete option on the locals. -/
def CliOption.apply (st : Locals) : CliOption → Locals
  | .memory _ => { st with verbose_memory := 1 }
  | .filename _ v => { st with fname := some v }
  | .gpu _ v => { st with gpu_num := atoi v }
  | .num_iters _ v => { st with num_iters := atoi v }
  | .chunk_size _ v => { st with chunk_size := atoi v, explicit_chunk_size := true }
  | .type _ t => { st with explicit_type := true, data_type := t }
  | .num_rles _ v => { st with cascaded_opts := { st.cascaded_opts with num_RLEs := atoi v } }
  | .num_deltas _ v =>
    { st with cascaded_opts := { st.cascaded_opts with num_deltas := atoi v } }
  | .num_bps _ v =>
    { st with cascaded_opts :=
      { st.cascaded_opts with use_bp := if atoi v ≠ 0 then 1 else 0 } }

/-- The locals at the end of the option loop, for complete options. -/
def finalLocals (env : Env) (opts : List CliOption) : Locals :=
  opts.foldl CliOption.apply (Locals.init env)

/-- The constructor call of `main` for a format, from the locals at loop exit. -/
def managerFor (env : Env) (st : Locals) : Format → ManagerCall
  | .lz4 => .LZ4Manager st.chunk_size st.data_type env.stream st.gpu_num .NoComputeNoVerify
  | .snappy => .SnappyManager st.chunk_size env.stream st.gpu_num .NoComputeNoVerify
  | .bitcomp => .BitcompManager st.data_type 0 env.stream st.gpu_num .NoComputeNoVerify
  | .ans => .ANSManager st.chunk_size env.stream st.gpu_num .NoComputeNoVerify
  | .cascaded =>
    .CascadedManager
      { chunk_size := if st.explicit_chunk_size then st.chunk_size
          else st.cascaded_opts.chunk_size
        type := if st.explicit_type then st.data_type else st.cascaded_opts.type
        num_RLEs := st.cascaded_opts.num_RLEs
        num_deltas := st.cascaded_opts.num_deltas
        use_bp := st.cascaded_opts.use_bp }
      env.stream st.gpu_num .NoComputeNoVerify
  | .gdeflate => .GdeflateManager st.chunk_size 0 env.stream st.gpu_num .NoComputeNoVerify

/-- Sample surroundings for evaluation: cascaded defaults (4096, int, 2, 1, 1) and
stream handle 1. -/
def sampleEnv : Env :=
  { nvcompBatchedCascadedDefaultOpts :=
      { chunk_size := 4096, type := .NVCOMP_TYPE_INT, num_RLEs := 2, num_deltas := 1,
        use_bp := 1 }
    stream := 1 }

/-! ## Part 2: `SnappyBatchManager.hpp` -/

/-- Addresses; 0 is the null pointer. -/
abbrev Ptr := Nat

/-- The results of the device runtime calls that the model distinguishes. -/
inductive cudaError_t
  | cudaSuccess
  | cudaErrorInvalidValue
  | cudaErrorMemoryAllocation
  deriving DecidableEq, Repr

/-- The allocation state of the machine: the live pinned host blocks, the live device
blocks, the next fresh address, and how many further pinned / device allocations can
succeed. -/
structure Device where
  pinned : List Ptr
  device : List Ptr
  next : Ptr
  pinned_left : Nat
  device_left : Nat
  deriving DecidableEq, Repr

/-- Runtime call `cudaHostAlloc`: a fresh pinned block, or `cudaErrorMemoryAllocation`
when no pinned memory is left (the size and flag arguments play no part). -/
def cudaHostAlloc (dev : Device) : Except cudaError_t Ptr × Device :=
  if dev.pinned_left = 0 then (.error .cudaErrorMemoryAllocation, dev)
  else (.ok dev.next,
    { dev with pinned := dev.next :: dev.pinned, next := dev.next + 1,
               pinned_left := dev.pinned_left - 1 })

/-- Runtime call `cudaFreeHost`: releases a live pinned block; the null pointer is
accepted and ignored; any other address is `cudaErrorInvalidValue`. -/
def cudaFreeHost (dev : Device) (p : Ptr) : Except cudaError_t Unit × Device :=
  if p ∈ dev.pinned then
    (.ok (), { dev with pinned := dev.pinned.erase p, pinned_left := dev.pinned_left + 1 })
  else if p = 0 then (.ok (), dev)
  else (.error .cudaErrorInvalidValue, dev)

/-- Runtime call `cudaMalloc`: a fresh device block, or `cudaErrorMemoryAllocation` when
no device memory is left. -/
def cudaMalloc (dev : Device) : Except cudaError_t Ptr × Device :=
  if dev.device_left = 0 then (.error .cudaErrorMemoryAllocation, dev)
  else (.ok dev.next,
    { dev with device := dev.next :: dev.device, next := dev.next + 1,
               device_left := dev.device_left - 1 })

/-- Runtime call `cudaFree`, the device counterpart of `cudaFreeHost`. -/
def cudaFree (dev : Device) (p : Ptr) : Except cudaError_t Unit × Device :=
  if p ∈ dev.device then
    (.ok (), { dev with device := dev.device.erase p, device_left := dev.device_left + 1 })
  else if p = 0 then (.ok (), dev)
  else (.error .cudaErrorInvalidValue, dev)

/-- Modelled from the spec: the macro `gpuErrchk`, whose definition is not among the
sources. A failed device call is escalated at once as a fatal error and nothing after it
runs; after a successful call the run goes on with `rest`. -/
def gpuErrchk {α β : Type} (r : Except cudaError_t α × Device)
    (rest : α → Device → Except cudaError_t β × Device) : Except cudaError_t β × Device :=
  match r with
  | (.error e, dev) => (.error e, dev)
  | (.ok a, dev) => rest a dev

/-- The library and kernel-side functions that `SnappyBatchManager.hpp` calls and whose
definitions are not among the sources:
`nvcompBatchedSnappyCompressGetMaxOutputChunkSize` at `nvcompBatchedSnappyDefaultOpts`
(the value it stores through its last argument), `snappyHlifCompMaxBlockOccupancy` and
`snappyHlifDecompMaxBlockOccupancy`. -/
structure SnappyLib where
  nvcompBatchedSnappyCompressGetMaxOutputChunkSize : Nat → Nat
  snappyHlifCompMaxBlockOccupancy : Int → Nat
  snappyHlifDecompMaxBlockOccupancy : Int → Nat

/-- The state of a `SnappyBatchManager`: the members of the base class `BatchManager`
that the header reads or writes, and `format_spec`. -/
structure SnappyBatchManager where
  uncomp_chunk_size : Nat
  user_stream : cudaStream_t
  device_id : Int
  max_comp_chunk_size : Nat
  scratch_buffer : Ptr
  ix_chunk : Ptr
  max_comp_ctas : Nat
  max_decomp_ctas : Nat
  format_spec : Ptr
  deriving DecidableEq, Repr

/-- Modelled from the spec: the constructor of the base class `BatchManager`, which is
not among the sources. It validates `chunk_size > 0` on the `size_t` it is given and fails
with a configuration error when the chunk size is 0; the error is carried with the code
`cudaErrorInvalidValue`. Otherwise it records the chunk size, the stream and the device of
the configuration; the other members are zero until they are resolved. -/
def BatchManager.init (uncomp_chunk_size : Nat) (user_stream : cudaStream_t)
    (device_id : Int) : Except cudaError_t SnappyBatchManager :=
  if 0 < uncomp_chunk_size then
    .ok { uncomp_chunk_size := uncomp_chunk_size
          user_stream := user_stream
          device_id := device_id
          max_comp_chunk_size := 0
          scratch_buffer := 0
          ix_chunk := 0
          max_comp_ctas := 0
          max_decomp_ctas := 0
          format_spec := 0 }
  else
    .error .cudaErrorInvalidValue

/-- Method `compute_max_compressed_chunk_size` (lines 71 to 77): the value and the
manager after the call. -/
def SnappyBatchManager.compute_max_compressed_chunk_size (lib : SnappyLib)
    (m : SnappyBatchManager) : Nat × SnappyBatchManager :=
  (lib.nvcompBatchedSnappyCompressGetMaxOutputChunkSize m.uncomp_chunk_size, m)

/-- Method `compute_compression_max_block_occupancy` (lines 79 to 82). -/
def SnappyBatchManager.compute_compression_max_block_occupancy (lib : SnappyLib)
    (m : SnappyBatchManager) : Nat × SnappyBatchManager :=
  (lib.snappyHlifCompMaxBlockOccupancy m.device_id, m)

/-- Method `compute_decompression_max_block_occupancy` (lines 84 to 87). -/
def SnappyBatchManager.compute_decompression_max_block_occupancy (lib : SnappyLib)
    (m : SnappyBatchManager) : Nat × SnappyBatchManager :=
  (lib.snappyHlifDecompMaxBlockOccupancy m.device_id, m)

/-- Method `get_format_header` (lines 89 to 92). -/
def SnappyBatchManager.get_format_header (m : SnappyBatchManager) : Ptr × SnappyBatchManager :=
  (m.format_spec, m)

/-- Modelled from the spec: `finish_init` of the base class `BatchManager`, which is not
among the sources. It resolves the parallel-occupancy bounds from the codec strategy and
allocates the scratch buffer; a failed device allocation is a fatal configuration
error. (The validation of the chunk size comes first in a configuration and is done by
the base-class constructor, before anything is allocated.) -/
def BatchManager.finish_init (lib : SnappyLib) (dev : Device) (m : SnappyBatchManager) :
    Except cudaError_t SnappyBatchManager × Device :=
  let (comp_ctas, m1) := m.compute_compression_max_block_occupancy lib
  let (decomp_ctas, m2) := m1.compute_decompression_max_block_occupancy lib
  let m3 := { m2 with max_comp_ctas := comp_ctas, max_decomp_ctas := decomp_ctas }
  gpuErrchk (cudaMalloc dev) fun p dev1 => (.ok { m3 with scratch_buffer := p }, dev1)

/-- Modelled from the spec: the destructor of the base class `BatchManager`, which is not
among the sources. It releases the scratch buffer. -/
def BatchManager.destroy (dev : Device) (m : SnappyBatchManager) :
    Except cudaError_t Unit × Device :=
  cudaFree dev m.scratch_buffer

/-- The constructor (lines 52 to 61): base-class initialisation, `format_spec ()`, the
pinned allocation under `gpuErrchk`, the size bound, `finish_init`. The body has no
handler and no guard: a failure of the base-class constructor, under `gpuErrchk` or in
`finish_init` leaves the constructor at once (the destructor body does not run for an
object whose constructor has not completed). The body itself has no test of the chunk
size. The result is the manager or the configuration error, and the allocation state that
is left. -/
def SnappyBatchManager.new (lib : SnappyLib) (dev : Device) (uncomp_chunk_size : Nat)
    (user_stream : cudaStream_t) (device_id : Int) :
    Except cudaError_t SnappyBatchManager × Device :=
  match BatchManager.init uncomp_chunk_size user_stream device_id with
  | .error e => (.error e, dev)
  | .ok m0 =>
    gpuErrchk (cudaHostAlloc dev) fun p dev1 =>
      let m1 := { m0 with format_spec := p }
      let (bound, m2) := m1.compute_max_compressed_chunk_size lib
      let m3 := { m2 with max_comp_chunk_size := bound }
      BatchManager.finish_init lib dev1 m3

/-- The destructor (lines 63 to 66): `cudaFreeHost (format_spec)` under `gpuErrchk`, then
the destructor of the base class. -/
def SnappyBatchManager.destroy (dev : Device) (m : SnappyBatchManager) :
    Except cudaError_t Unit × Device :=
  gpuErrchk (cudaFreeHost dev m.format_spec) fun _ dev1 => BatchManager.destroy dev1 m

/-- The address of a member of a `CommonHeader` object. -/
inductive HeaderField
  | comp_data_size (common_header : Ptr)
  deriving DecidableEq, Repr

/-- The kernel dispatches of the header, each with its arguments in call order. -/
inductive KernelCall
  | snappyHlifBatchCompress (common_header : Ptr) (decomp_buffer : Ptr)
      (decomp_buffer_size : Nat) (comp_data_buffer : Ptr) (scratch_buffer : Ptr)
      (uncomp_chunk_size : Nat) (comp_data_size : HeaderField) (ix_chunk : Ptr)
      (num_chunks : Nat) (max_comp_chunk_size : Nat) (comp_chunk_offsets : Ptr)
      (comp_chunk_sizes : Ptr) (max_comp_ctas : Nat) (user_stream : cudaStream_t)
      (output_status : Ptr)
  | snappyHlifBatchDecompress (comp_data_buffer : Ptr) (decomp_buffer : Ptr)
      (uncomp_chunk_size : Nat) (ix_chunk : Ptr) (num_chunks : Nat)
      (comp_chunk_offsets : Ptr) (comp_chunk_sizes : Ptr) (max_decomp_ctas : Nat)
      (user_stream : cudaStream_t) (output_status : Ptr)
  deriving DecidableEq, Repr

/-- The chunk count a dispatch receives. -/
def KernelCall.num_chunks : KernelCall → Nat
  | .snappyHlifBatchCompress _ _ _ _ _ _ _ _ n _ _ _ _ _ _ => n
  | .snappyHlifBatchDecompress _ _ _ _ n _ _ _ _ _ => n

/-- The worst-case compressed chunk size a compress dispatch receives. -/
def KernelCall.max_comp_chunk_size? : KernelCall → Option Nat
  | .snappyHlifBatchCompress _ _ _ _ _ _ _ _ _ b _ _ _ _ _ => some b
  | .snappyHlifBatchDecompress .. => none

/-- Method `do_batch_compress` (lines 94 to 120): the dispatches it issues, in order, and
the manager after the call. -/
def SnappyBatchManager.do_batch_compress (m : SnappyBatchManager) (common_header : Ptr)
    (decomp_buffer : Ptr) (decomp_buffer_size : Nat) (comp_data_buffer : Ptr)
    (num_chunks : Nat) (comp_chunk_offsets : Ptr) (comp_chunk_sizes : Ptr)
    (output_status : Ptr) : List KernelCall × SnappyBatchManager :=
  ([.snappyHlifBatchCompress common_header decomp_buffer decomp_buffer_size
      comp_data_buffer m.scratch_buffer m.uncomp_chunk_size
      (.comp_data_size common_header) m.ix_chunk num_chunks m.max_comp_chunk_size
      comp_chunk_offsets comp_chunk_sizes m.max_comp_ctas m.user_stream output_status], m)

/-- Method `do_batch_decompress` (lines 122 to 141): the dispatches it issues, in order,
and the manager after the call. -/
def SnappyBatchManager.do_batch_decompress (m : SnappyBatchManager) (comp_data_buffer : Ptr)
    (decomp_buffer : Ptr) (num_chunks : Nat) (comp_chunk_offsets : Ptr)
    (comp_chunk_sizes : Ptr) (output_status : Ptr) : List KernelCall × SnappyBatchManager :=
  ([.snappyHlifBatchDecompress comp_data_buffer decomp_buffer m.uncomp_chunk_size
      m.ix_chunk num_chunks comp_chunk_offsets comp_chunk_sizes m.max_decomp_ctas
      m.user_stream output_status], m)

/-- Sample library for evaluation: the bound `32 + n + n / 6` in `size_t` arithmetic and
occupancy 8. -/
def sampleLib : SnappyLib where
  nvcompBatchedSnappyCompressGetMaxOutputChunkSize n := (32 + n + n / 6) % 2 ^ 64
  snappyHlifCompMaxBlockOccupancy _ := 8
  snappyHlifDecompMaxBlockOccupancy _ := 8

/-- Sample allocation state for evaluation: nothing live, fresh addresses from 4096,
`pinned_left` pinned and `device_left` device allocations available. -/
def sampleDevice (pinned_left device_left : Nat) : Device where
  pinned := []
  device := []
  next := 4096
  pinned_left := pinned_left
  device_left := device_left

/-- The chunk sizes that the managers constructed by a run are configured with. -/
def madeChunkSizes (env : Env) (argv : List String) : List (Option Int) :=
  (main env argv).managers.map ManagerCall.chunk_size?

/-- The element types that the managers constructed by a run are given. -/
def madeDataTypes (env : Env) (argv : List String) : List (Option nvcompType_t) :=
  (main env argv).managers.map ManagerCall.data_type?

/-- The checksum modes that the managers constructed by a run are given. -/
def madePolicies (env : Env) (argv : List String) : List ChecksumPolicy :=
  (main env argv).managers.map ManagerCall.policy

/-! ### Lemmas on the option loop -/

theorem parseOptions_memory (st : Locals) (arg : String) (rest : List String)
    (h : arg = "--memory" ∨ arg = "-m") :
    parseOptions st (arg :: rest) = parseOptions { st with verbose_memory := 1 } rest := by
  cases rest with
  | nil => rcases h with h | h <;> subst h <;> simp [parseOptions]
  | cons b r => rcases h with h | h <;> subst h <;> simp [parseOptions]

theorem parseOptions_value (st : Locals) (arg optarg : String) (rest : List String)
    (h : takesValue arg = true) :
    parseOptions st (arg :: optarg :: rest) =
      (handleValueOption st arg optarg).bind fun st1 => parseOptions st1 rest := by
  simp only [takesValue, decide_eq_true_eq, Bool.or_eq_true, Bool.decide_or] at h
  have h1 : ¬ (arg = "--help" ∨ arg = "-?") := by
    rcases h with h | h | h | h | h | h | h | h | h | h | h | h | h | h | h | h <;>
      subst h <;> decide
  have h2 : ¬ (arg = "--memory" ∨ arg = "-m") := by
    rcases h with h | h | h | h | h | h | h | h | h | h | h | h | h | h | h | h <;>
      subst h <;> decide
  rw [parseOptions, if_neg h1, if_neg h2]
  cases handleValueOption st arg optarg <;> rfl

theorem parseOptions_render (st : Locals) (o : CliOption) (rest : List String) :
    parseOptions st (o.render ++ rest) = parseOptions (o.apply st) rest := by
  cases o with
  | memory l =>
    cases l <;> exact parseOptions_memory st _ rest (by decide)
  | type l t =>
    cases l <;> cases t <;>
      (simp only [CliOption.render, List.cons_append, List.nil_append]
       rw [parseOptions_value st _ _ rest (by decide)]
       rfl)
  | _ l v =>
    cases l <;>
      (simp only [CliOption.render, List.cons_append, List.nil_append]
       rw [parseOptions_value st _ _ rest (by decide)]
       rfl)

theorem parseOptions_renderAll (opts : List CliOption) (st : Locals) (rest : List String) :
    parseOptions st (renderAll opts ++ rest) = parseOptions (opts.foldl CliOption.apply st) rest := by
  induction opts generalizing st with
  | nil => rfl
  | cons o os ih =>
    rw [renderAll, List.append_assoc, parseOptions_render, ih, List.foldl_cons]

theorem parseOptions_unknown (st : Locals) (bad : String) (rest : List String)
    (h : isOptionName bad = false) : parseOptions st (bad :: rest) = none := by
  simp only [isOptionName, takesValue, Bool.decide_or, Bool.or_eq_false_iff,
    decide_eq_false_iff_not, Bool.decide_eq_true, Bool.not_eq_true] at h
  obtain ⟨h1, h2, h3, h4, h5, h6, h7, h8, h9, h10, h11, h12, h13, h14, h15, h16, h17, h18⟩ := h
  cases rest with
  | nil => simp [parseOptions, h1, h2]
  | cons optarg r =>
    simp [parseOptions, handleValueOption, h1, h2, h3, h4, h5, h6, h7, h8, h9, h10, h11, h12,
      h13, h14, h15, h16, h17, h18]

theorem parseOptions_missing (st : Locals) (opt : String) (h : takesValue opt = true) :
    parseOptions st [opt] = none := by
  simp only [takesValue, decide_eq_true_eq, Bool.or_eq_true, Bool.decide_or] at h
  rcases h with h | h | h | h | h | h | h | h | h | h | h | h | h | h | h | h <;>
    subst h <;> simp [parseOptions]

theorem parseOptions_bad_type (st : Locals) (opt value : String) (rest : List String)
    (ho : opt = "--type" ∨ opt = "-t") (hv : knownType value = false) :
    parseOptions st (opt :: value :: rest) = none := by
  simp only [knownType, Bool.decide_or, Bool.or_eq_false_iff, decide_eq_false_iff_not] at hv
  have ht : takesValue opt = true := by rcases ho with h | h <;> subst h <;> decide
  rw [parseOptions_value st opt value rest ht]
  rcases ho with h | h <;> subst h <;> simp [handleValueOption, hv]

theorem parseOptions_complete (env : Env) (opts : List CliOption) :
    parseOptions (Locals.init env) (renderAll opts) = some (finalLocals env opts) := by
  have h := parseOptions_renderAll opts (Locals.init env) []
  rw [List.append_nil] at h
  rw [h]
  rfl

theorem fold_last {α β : Type} (sel : CliOption → Option α) (f : Locals → β) (g : α → β)
    (h : ∀ st o, f (CliOption.apply st o) = (sel o).elim (f st) g)
    (opts : List CliOption) (st : Locals) :
    f (opts.foldl CliOption.apply st) = (lastValue sel opts).elim (f st) g := by
  induction opts generalizing st with
  | nil => rfl
  | cons o os ih =>
    rw [List.foldl_cons, ih, lastValue]
    cases lastValue sel os with
    | some v => rfl
    | none => exact h st o

theorem finalLocals_fname (env : Env) (opts : List CliOption) :
    (finalLocals env opts).fname = lastValue selFilename opts := by
  have h := fold_last selFilename (fun st => st.fname) some
    (by intro st o; cases o <;> rfl) opts (Locals.init env)
  rw [finalLocals, h]
  cases lastValue selFilename opts <;> rfl

theorem finalLocals_gpu_num (env : Env) (opts : List CliOption) :
    (finalLocals env opts).gpu_num = gpuOf opts := by
  have h := fold_last selGpu (fun st => st.gpu_num) atoi
    (by intro st o; cases o <;> rfl) opts (Locals.init env)
  rw [finalLocals, h, gpuOf]
  cases lastValue selGpu opts <;> rfl

theorem finalLocals_num_iters (env : Env) (opts : List CliOption) :
    (finalLocals env opts).num_iters = itersOf opts := by
  have h := fold_last selIters (fun st => st.num_iters) atoi
    (by intro st o; cases o <;> rfl) opts (Locals.init env)
  rw [finalLocals, h, itersOf]
  cases lastValue selIters opts <;> rfl

theorem finalLocals_verbose_memory (env : Env) (opts : List CliOption) :
    (finalLocals env opts).verbose_memory = verboseOf opts := by
  have h := fold_last selMemory (fun st => st.verbose_memory) (fun _ => 1)
    (by intro st o; cases o <;> rfl) opts (Locals.init env)
  rw [finalLocals, h, verboseOf]
  cases lastValue selMemory opts <;> rfl

theorem finalLocals_chunk_size (env : Env) (opts : List CliOption) :
    (finalLocals env opts).chunk_size = chunkOf opts := by
  have h := fold_last selChunk (fun st => st.chunk_size) atoi
    (by intro st o; cases o <;> rfl) opts (Locals.init env)
  rw [finalLocals, h, chunkOf]
  cases lastValue selChunk opts <;> rfl

theorem finalLocals_explicit_chunk_size (env : Env) (opts : List CliOption) :
    (finalLocals env opts).explicit_chunk_size = (lastValue selChunk opts).isSome := by
  have h := fold_last selChunk (fun st => st.explicit_chunk_size) (fun _ => true)
    (by intro st o; cases o <;> rfl) opts (Locals.init env)
  rw [finalLocals, h]
  cases lastValue selChunk opts <;> rfl

theorem finalLocals_data_type (env : Env) (opts : List CliOption) :
    (finalLocals env opts).data_type = typeOf opts := by
  have h := fold_last selType (fun st => st.data_type) id
    (by intro st o; cases o <;> rfl) opts (Locals.init env)
  rw [finalLocals, h, typeOf]
  cases lastValue selType opts <;> rfl

theorem finalLocals_explicit_type (env : Env) (opts : List CliOption) :
    (finalLocals env opts).explicit_type = (lastValue selType opts).isSome := by
  have h := fold_last selType (fun st => st.explicit_type) (fun _ => true)
    (by intro st o; cases o <;> rfl) opts (Locals.init env)
  rw [finalLocals, h]
  cases lastValue selType opts <;> rfl

theorem finalLocals_cascaded_chunk_size (env : Env) (opts : List CliOption) :
    (finalLocals env opts).cascaded_opts.chunk_size =
      env.nvcompBatchedCascadedDefaultOpts.chunk_size := by
  have h := fold_last (fun _ => (none : Option Unit)) (fun st => st.cascaded_opts.chunk_size)
    (fun _ => env.nvcompBatchedCascadedDefaultOpts.chunk_size)
    (by intro st o; cases o <;> rfl) opts (Locals.init env)
  rw [finalLocals, h]
  cases lastValue (fun _ => (none : Option Unit)) opts <;> rfl

theorem finalLocals_cascaded_type (env : Env) (opts : List CliOption) :
    (finalLocals env opts).cascaded_opts.type = env.nvcompBatchedCascadedDefaultOpts.type := by
  have h := fold_last (fun _ => (none : Option Unit)) (fun st => st.cascaded_opts.type)
    (fun _ => env.nvcompBatchedCascadedDefaultOpts.type)
    (by intro st o; cases o <;> rfl) opts (Locals.init env)
  rw [finalLocals, h]
  cases lastValue (fun _ => (none : Option Unit)) opts <;> rfl

theorem knownFormat_name (fmt : Format) : knownFormat fmt.name = true := by
  cases fmt <;> decide

theorem selectManager_name (env : Env) (st : Locals) (fmt : Format) :
    selectManager env st fmt.name = some (managerFor env st fmt) := by
  cases fmt
  case cascaded =>
    simp only [selectManager, Format.name, managerFor]
    cases h1 : st.explicit_type <;> cases h2 : st.explicit_chunk_size <;> simp
  all_goals simp [selectManager, Format.name, managerFor]

theorem managerFor_format (env : Env) (st : Locals) (fmt : Format) :
    (managerFor env st fmt).format = fmt := by
  cases fmt <;> rfl

theorem managerFor_policy (env : Env) (st : Locals) (fmt : Format) :
    (managerFor env st fmt).policy = .NoComputeNoVerify := by
  cases fmt <;> rfl

theorem main_usage_of_parse_none (env : Env) (prog fmt : String) (rest : List String)
    (h : parseOptions (Locals.init env) rest = none) :
    (main env (prog :: fmt :: rest)).usageExit = true := by
  rw [main]
  cases knownFormat fmt
  · rfl
  · simp only [if_true, h]
    rfl

theorem main_complete (env : Env) (prog : String) (fmt : Format) (opts : List CliOption)
    (fname : String) (h : lastValue selFilename opts = some fname) :
    main env (prog :: fmt.name :: renderAll opts) =
      .exited [.cudaSetDevice (gpuOf opts), .cudaStreamCreate,
        .make_manager (managerFor env (finalLocals env opts) fmt),
        .run_benchmark_from_file fname (managerFor env (finalLocals env opts) fmt)
          (verboseOf opts) env.stream (itersOf opts),
        .cudaStreamDestroy env.stream] 0 := by
  have hf : (finalLocals env opts).fname = some fname := by rw [finalLocals_fname, h]
  rw [main]
  simp only [knownFormat_name, if_true, parseOptions_complete, hf, selectManager_name,
    finalLocals_gpu_num, finalLocals_verbose_memory, finalLocals_num_iters]

theorem main_complete_managers (env : Env) (prog : String) (fmt : Format)
    (opts : List CliOption) (fname : String) (h : lastValue selFilename opts = some fname) :
    (main env (prog :: fmt.name :: renderAll opts)).managers =
      [managerFor env (finalLocals env opts) fmt] := by
  rw [main_complete env prog fmt opts fname h]
  rfl

/-! ### Lemmas on `atoi` -/

theorem digitChar_isdigit (m : Nat) (h : m < 10) :
    isdigit (Nat.digitChar m) = true ∧ (Nat.digitChar m).toNat - 48 = m := by
  interval_cases m <;> decide

theorem atoiDigits_digitChar (acc m : Nat) (h : m < 10) (ds : List Char) :
    atoiDigits acc (Nat.digitChar m :: ds) = atoiDigits (acc * 10 + m) ds := by
  have hd := digitChar_isdigit m h
  rw [atoiDigits, if_pos hd.1, hd.2]

theorem atoiDigits_toDigitsCore (fuel : Nat) :
    ∀ (n : Nat) (ds : List Char), n < fuel →
      atoiDigits 0 (Nat.toDigitsCore 10 fuel n ds) = atoiDigits n ds := by
  induction fuel with
  | zero => intro n ds h; omega
  | succ fuel ih =>
    intro n ds h
    rw [Nat.toDigitsCore]
    by_cases h0 : n / 10 = 0
    · simp only [h0, if_true]
      rw [atoiDigits_digitChar 0 _ (Nat.mod_lt _ (by decide))]
      congr 1
      omega
    · simp only [h0, if_false]
      rw [ih (n / 10) _ (by omega), atoiDigits_digitChar _ _ (Nat.mod_lt _ (by decide))]
      congr 1
      omega

theorem toDigitsCore_head (fuel : Nat) :
    ∀ (n : Nat) (ds : List Char), ∃ m cs, m < 10 ∧
      Nat.toDigitsCore 10 (fuel + 1) n ds = Nat.digitChar m :: cs := by
  induction fuel with
  | zero =>
    intro n ds
    refine ⟨n % 10, ds, Nat.mod_lt _ (by decide), ?_⟩
    simp [Nat.toDigitsCore]
  | succ fuel ih =>
    intro n ds
    rw [Nat.toDigitsCore]
    by_cases h0 : n / 10 = 0
    · exact ⟨n % 10, ds, Nat.mod_lt _ (by decide), by simp [h0]⟩
    · simp only [h0, if_false]
      exact ih _ _

theorem digit_head (m : Nat) (h : m < 10) :
    isspace (Nat.digitChar m) = false ∧ ((Nat.digitChar m).toNat == 45) = false ∧
      ((Nat.digitChar m).toNat == 43) = false := by
  interval_cases m <;> decide

theorem atoi_toString (n : Nat) (h : n < 2 ^ 31) : atoi (toString n) = (n : Int) := by
  obtain ⟨m, cs, hm, hcs⟩ := toDigitsCore_head n n []
  have hv := atoiDigits_toDigitsCore (n + 1) n [] (Nat.lt_succ_self n)
  have hd := digit_head m hm
  have hs : (toString n).toList = Nat.digitChar m :: cs := by
    show (Nat.toDigits 10 n) = _
    exact hcs
  rw [hcs, show atoiDigits n [] = n from rfl] at hv
  rw [atoi, hs, List.dropWhile_cons, hd.1]
  simp only [Bool.false_eq_true, if_false, atoiSigned, hd.2.1, hd.2.2, hv]
  rw [clampLong, wrapInt32]
  simp only [Int.ofNat_eq_coe]
  have h1 : ¬ ((n : Int) < -(2 ^ 63)) := by omega
  have h2 : ¬ ((2 : Int) ^ 63 - 1 < n) := by omega
  rw [if_neg h1, if_neg h2]
  omega

theorem invalid_type_usage (env : Env) (prog fmt : String) (pre : List CliOption)
    (opt v : String) (rest : List String) (ho : opt = "--type" ∨ opt = "-t")
    (hv : knownType v = false) :
    (main env (prog :: fmt :: (renderAll pre ++ opt :: v :: rest))).usageExit = true := by
  apply main_usage_of_parse_none
  rw [parseOptions_renderAll, parseOptions_bad_type _ _ _ _ ho hv]

/-! ### Theorems on `main` -/

/-- C1: for every argument vector whose first argument is present and that is invalid in
one of the listed ways (unknown format; an argument in option position that is no option
name; a value-taking option as the last argument; `--type` with a value the loop has no
branch for; no filename), `main` prints the usage text, exits with status 1 and
constructs no manager. -/
theorem invalid_args_usage (env : Env) (prog : String) (args : List String)
    (h : InvalidArgs args) : (main env (prog :: args)).usageExit = true := by
  cases h with
  | bad_format fmt rest hf =>
    rw [main]
    simp only [hf]
    rfl
  | unknown_option fmt pre bad rest hb =>
    apply main_usage_of_parse_none
    rw [parseOptions_renderAll, parseOptions_unknown _ _ _ hb]
  | missing_value fmt pre opt ho =>
    apply main_usage_of_parse_none
    rw [parseOptions_renderAll, parseOptions_missing _ _ ho]
  | bad_type fmt pre opt value rest ho hv =>
    exact invalid_type_usage env prog fmt pre opt value rest ho hv
  | no_filename fmt pre hn =>
    rw [main]
    cases knownFormat fmt
    · rfl
    · have hf : (finalLocals env pre).fname = none := by rw [finalLocals_fname, hn]
      simp only [if_true, parseOptions_complete, hf]
      rfl

/-- Witness of C1, one invalid argument vector for each of the five ways. -/
theorem invalid_args_usage_witness :
    (InvalidArgs ["zip", "-f", "data.bin"] ∧
      (main sampleEnv ["benchmark_hlif", "zip", "-f", "data.bin"]).usageExit = true) ∧
    (InvalidArgs ["lz4", "-f", "data.bin", "--bogus", "1"] ∧
      (main sampleEnv ["benchmark_hlif", "lz4", "-f", "data.bin", "--bogus", "1"]).usageExit
        = true) ∧
    (InvalidArgs ["lz4", "-f", "data.bin", "-c"] ∧
      (main sampleEnv ["benchmark_hlif", "lz4", "-f", "data.bin", "-c"]).usageExit = true) ∧
    (InvalidArgs ["lz4", "-f", "data.bin", "-t", "float"] ∧
      (main sampleEnv ["benchmark_hlif", "lz4", "-f", "data.bin", "-t", "float"]).usageExit
        = true) ∧
    (InvalidArgs ["lz4", "-m", "-n", "3"] ∧
      (main sampleEnv ["benchmark_hlif", "lz4", "-m", "-n", "3"]).usageExit = true) :=
  have h1 : InvalidArgs ["zip", "-f", "data.bin"] := .bad_format _ _ (by decide)
  have h2 : InvalidArgs ["lz4", "-f", "data.bin", "--bogus", "1"] :=
    .unknown_option "lz4" [.filename false "data.bin"] "--bogus" ["1"] (by decide)
  have h3 : InvalidArgs ["lz4", "-f", "data.bin", "-c"] :=
    .missing_value "lz4" [.filename false "data.bin"] "-c" (by decide)
  have h4 : InvalidArgs ["lz4", "-f", "data.bin", "-t", "float"] :=
    .bad_type "lz4" [.filename false "data.bin"] "-t" "float" [] (by decide) (by decide)
  have h5 : InvalidArgs ["lz4", "-m", "-n", "3"] :=
    .no_filename "lz4" [.memory false, .num_iters false "3"] (by decide)
  ⟨⟨h1, invalid_args_usage sampleEnv "benchmark_hlif" _ h1⟩,
   ⟨h2, invalid_args_usage sampleEnv "benchmark_hlif" _ h2⟩,
   ⟨h3, invalid_args_usage sampleEnv "benchmark_hlif" _ h3⟩,
   ⟨h4, invalid_args_usage sampleEnv "benchmark_hlif" _ h4⟩,
   ⟨h5, invalid_args_usage sampleEnv "benchmark_hlif" _ h5⟩⟩

/-- C2 (what the code does): with only the program name in `argv`, `main` builds the
format string from the null pointer that ends `argv`; no usage text is printed and no exit
status 1 is produced. -/
theorem main_without_arguments (env : Env) (prog : String) :
    main env [prog] = .null_argument ∧ (main env [prog]).usageExit = false :=
  ⟨rfl, rfl⟩

/-- C3: for every format name and every sequence of complete, recognised options that
gives a filename, `main` selects the device, creates the stream, constructs exactly one
manager, of the variant the format names, runs the benchmark once on that manager with
the last filename, the verbosity and the iteration count of the options, destroys the
stream and exits with status 0. -/
theorem main_runs_benchmark (env : Env) (prog : String) (fmt : Format)
    (opts : List CliOption) (fname : String) (h : lastValue selFilename opts = some fname) :
    ∃ call : ManagerCall, call.format = fmt ∧
      (main env (prog :: fmt.name :: renderAll opts)).managers = [call] ∧
      main env (prog :: fmt.name :: renderAll opts) =
        .exited [.cudaSetDevice (gpuOf opts), .cudaStreamCreate, .make_manager call,
          .run_benchmark_from_file fname call (verboseOf opts) env.stream (itersOf opts),
          .cudaStreamDestroy env.stream] 0 :=
  ⟨managerFor env (finalLocals env opts) fmt, managerFor_format _ _ _,
    main_complete_managers env prog fmt opts fname h, main_complete env prog fmt opts fname h⟩

/-- Witness of C3: `benchmark_hlif snappy -f data.bin -n 3 -m`. -/
theorem main_runs_benchmark_witness :
    lastValue selFilename
        [.filename false "data.bin", .num_iters false "3", .memory false] = some "data.bin" ∧
    ∃ call : ManagerCall, call.format = .snappy ∧
      (main sampleEnv ["benchmark_hlif", "snappy", "-f", "data.bin", "-n", "3", "-m"]).managers
        = [call] ∧
      main sampleEnv ["benchmark_hlif", "snappy", "-f", "data.bin", "-n", "3", "-m"] =
        .exited [.cudaSetDevice 0, .cudaStreamCreate, .make_manager call,
          .run_benchmark_from_file "data.bin" call 1 1 3, .cudaStreamDestroy 1] 0 :=
  ⟨rfl, main_runs_benchmark sampleEnv "benchmark_hlif" .snappy
    [.filename false "data.bin", .num_iters false "3", .memory false] "data.bin" rfl⟩

/-- C4 (as stated, refuted): `benchmark_hlif bitcomp -f data.bin` is accepted and has no
`-c`, and the one manager constructed, a `BitcompManager`, is given no chunk size at all;
with the sample cascaded defaults, `benchmark_hlif cascaded -f data.bin` configures chunk
size 4096. -/
theorem default_chunk_size_not_for_every_format :
    (main sampleEnv ["benchmark_hlif", "bitcomp", "-f", "data.bin"]).managers =
      [.BitcompManager .NVCOMP_TYPE_CHAR 0 1 0 .NoComputeNoVerify] ∧
    madeChunkSizes sampleEnv ["benchmark_hlif", "bitcomp", "-f", "data.bin"] ≠ [some 65536] ∧
    madeChunkSizes sampleEnv ["benchmark_hlif", "bitcomp", "-f", "data.bin", "-c", "4096"]
      = [none] ∧
    madeChunkSizes sampleEnv ["benchmark_hlif", "cascaded", "-f", "data.bin"] = [some 4096] := by
  decide

/-- C4 (amended): for every accepted argument vector, the manager `main` constructs is
configured with chunk size 65536 when there is no `-c` and the format is lz4, snappy, ans
or gdeflate; with `atoi` of the last `-c` value when there is one and the format is not
bitcomp (the number itself for a decimal numeral below 2^31); for cascaded without `-c`
the chunk size of the default cascaded options is kept; a `BitcompManager` is given no
chunk size. -/
theorem chunk_size_configured (env : Env) (prog : String) (fmt : Format)
    (opts : List CliOption) (fname : String) (h : lastValue selFilename opts = some fname) :
    (fmt = .bitcomp → madeChunkSizes env (prog :: fmt.name :: renderAll opts) = [none]) ∧
    (fmt ≠ .bitcomp → fmt ≠ .cascaded → lastValue selChunk opts = none →
      madeChunkSizes env (prog :: fmt.name :: renderAll opts) = [some 65536]) ∧
    (fmt = .cascaded → lastValue selChunk opts = none →
      madeChunkSizes env (prog :: fmt.name :: renderAll opts) =
        [some env.nvcompBatchedCascadedDefaultOpts.chunk_size]) ∧
    (fmt ≠ .bitcomp → ∀ v : String, lastValue selChunk opts = some v →
      madeChunkSizes env (prog :: fmt.name :: renderAll opts) = [some (atoi v)]) ∧
    (fmt ≠ .bitcomp → ∀ n : Nat, n < 2 ^ 31 → lastValue selChunk opts = some (toString n) →
      madeChunkSizes env (prog :: fmt.name :: renderAll opts) = [some (n : Int)]) := by
  have hm : madeChunkSizes env (prog :: fmt.name :: renderAll opts) =
      [(managerFor env (finalLocals env opts) fmt).chunk_size?] := by
    rw [madeChunkSizes, main_complete_managers env prog fmt opts fname h]
    rfl
  have hv : fmt ≠ .bitcomp → ∀ v : String, lastValue selChunk opts = some v →
      madeChunkSizes env (prog :: fmt.name :: renderAll opts) = [some (atoi v)] := by
    intro hb v hc
    rw [hm]
    cases fmt <;>
      simp [managerFor, ManagerCall.chunk_size?, finalLocals_chunk_size,
        finalLocals_explicit_chunk_size, chunkOf, hc] at hb ⊢
  refine ⟨?_, ?_, ?_, hv, ?_⟩
  · intro hf
    subst hf
    rw [hm]
    rfl
  · intro hb hcas hc
    rw [hm]
    cases fmt <;>
      simp [managerFor, ManagerCall.chunk_size?, finalLocals_chunk_size, chunkOf, hc]
        at hb hcas ⊢
  · intro hf hc
    subst hf
    rw [hm]
    simp [managerFor, ManagerCall.chunk_size?, finalLocals_explicit_chunk_size,
      finalLocals_cascaded_chunk_size, hc]
  · intro hb n hn hc
    rw [hv hb _ hc, atoi_toString n hn]

/-- Witness of C4 (amended): `benchmark_hlif snappy -f data.bin -c 4096`. -/
theorem chunk_size_configured_witness :
    (lastValue selFilename [.filename false "data.bin", .chunk_size false "4096"]
        = some "data.bin" ∧
      madeChunkSizes sampleEnv ["benchmark_hlif", "snappy", "-f", "data.bin", "-c", "4096"]
        = [some 4096]) ∧
    (lastValue selFilename [.filename true "data.bin"] = some "data.bin" ∧
      madeChunkSizes sampleEnv ["benchmark_hlif", "gdeflate", "--filename", "data.bin"]
        = [some 65536] ∧
      madeChunkSizes sampleEnv ["benchmark_hlif", "cascaded", "--filename", "data.bin"]
        = [some 4096] ∧
      madeChunkSizes sampleEnv ["benchmark_hlif", "bitcomp", "--filename", "data.bin"]
        = [none]) :=
  ⟨⟨rfl, (chunk_size_configured sampleEnv "benchmark_hlif" .snappy
      [.filename false "data.bin", .chunk_size false "4096"] "data.bin" rfl).2.2.2.2
        (by decide) 4096 (by decide) rfl⟩,
   ⟨rfl, (chunk_size_configured sampleEnv "benchmark_hlif" .gdeflate
      [.filename true "data.bin"] "data.bin" rfl).2.1 (by decide) (by decide) rfl,
    (chunk_size_configured sampleEnv "benchmark_hlif" .cascaded
      [.filename true "data.bin"] "data.bin" rfl).2.2.1 rfl rfl,
    (chunk_size_configured sampleEnv "benchmark_hlif" .bitcomp
      [.filename true "data.bin"] "data.bin" rfl).1 rfl⟩⟩

/-- C5 (as stated, refuted): `longlong` is not one of `char`, `short`, `int`, and
`benchmark_hlif lz4 -f data.bin -t longlong` does not print the usage text: it constructs
an `LZ4Manager` with `NVCOMP_TYPE_LONGLONG` and exits with status 0. -/
theorem type_longlong_accepted :
    documentedType "longlong" = false ∧
    (main sampleEnv ["benchmark_hlif", "lz4", "-f", "data.bin", "-t", "longlong"]).usageExit
      = false ∧
    main sampleEnv ["benchmark_hlif", "lz4", "-f", "data.bin", "-t", "longlong"] =
      .exited [.cudaSetDevice 0, .cudaStreamCreate,
        .make_manager (.LZ4Manager 65536 .NVCOMP_TYPE_LONGLONG 1 0 .NoComputeNoVerify),
        .run_benchmark_from_file "data.bin"
          (.LZ4Manager 65536 .NVCOMP_TYPE_LONGLONG 1 0 .NoComputeNoVerify) 0 1 1,
        .cudaStreamDestroy 1] 0 := by
  decide

/-- C5 (amended): the `-t` / `--type` option accepts exactly the values `char`, `short`,
`int` and `longlong` (default `char`): for every other value `main` prints the usage text
and exits with status 1, and for an accepted argument vector the element type handed to
the manager (lz4, bitcomp, cascaded) is that of the last `--type` option, `char` being
`NVCOMP_TYPE_CHAR`, `short` `NVCOMP_TYPE_SHORT`, `int` `NVCOMP_TYPE_INT` and `longlong`
`NVCOMP_TYPE_LONGLONG`; without a `--type` option it is `NVCOMP_TYPE_CHAR` for lz4 and
bitcomp. -/
theorem type_option_values (env : Env) (prog : String) :
    (typeName .NVCOMP_TYPE_CHAR = "char" ∧ typeName .NVCOMP_TYPE_SHORT = "short" ∧
      typeName .NVCOMP_TYPE_INT = "int" ∧ typeName .NVCOMP_TYPE_LONGLONG = "longlong") ∧
    (∀ v : String, knownType v = true ↔ ∃ t : nvcompType_t, typeName t = v) ∧
    ((Locals.init env).data_type = .NVCOMP_TYPE_CHAR ∧
      ∀ (st : Locals) (opt : String) (t : nvcompType_t) (rest : List String),
        (opt = "--type" ∨ opt = "-t") →
        parseOptions st (opt :: typeName t :: rest) =
          parseOptions { st with explicit_type := true, data_type := t } rest) ∧
    (∀ (fmt : String) (pre : List CliOption) (opt v : String) (rest : List String),
      (opt = "--type" ∨ opt = "-t") → knownType v = false →
      (main env (prog :: fmt :: (renderAll pre ++ opt :: v :: rest))).usageExit = true) ∧
    (∀ (fmt : Format) (opts : List CliOption) (fname : String) (t : nvcompType_t),
      lastValue selFilename opts = some fname →
      (fmt = .lz4 ∨ fmt = .bitcomp ∨ fmt = .cascaded) → lastValue selType opts = some t →
      madeDataTypes env (prog :: fmt.name :: renderAll opts) = [some t]) ∧
    (∀ (fmt : Format) (opts : List CliOption) (fname : String),
      lastValue selFilename opts = some fname →
      (fmt = .lz4 ∨ fmt = .bitcomp) → lastValue selType opts = none →
      madeDataTypes env (prog :: fmt.name :: renderAll opts) = [some .NVCOMP_TYPE_CHAR]) := by
  refine ⟨⟨rfl, rfl, rfl, rfl⟩, ?_, ⟨rfl, ?_⟩, ?_, ?_, ?_⟩
  · intro v
    constructor
    · intro hk
      simp only [knownType, Bool.decide_or, Bool.or_eq_true, decide_eq_true_eq] at hk
      rcases hk with hk | hk | hk | hk
      · exact ⟨.NVCOMP_TYPE_CHAR, hk.symm⟩
      · exact ⟨.NVCOMP_TYPE_SHORT, hk.symm⟩
      · exact ⟨.NVCOMP_TYPE_INT, hk.symm⟩
      · exact ⟨.NVCOMP_TYPE_LONGLONG, hk.symm⟩
    · rintro ⟨t, rfl⟩
      cases t <;> decide
  · intro st opt t rest ho
    rcases ho with ho | ho <;> subst ho
    · exact parseOptions_render st (.type true t) rest
    · exact parseOptions_render st (.type false t) rest
  · intro fmt pre opt v rest ho hv
    exact invalid_type_usage env prog fmt pre opt v rest ho hv
  · intro fmt opts fname t hf hfmt ht
    rw [madeDataTypes, main_complete_managers env prog fmt opts fname hf]
    rcases hfmt with hfmt | hfmt | hfmt <;> subst hfmt <;>
      simp [managerFor, ManagerCall.data_type?, finalLocals_data_type,
        finalLocals_explicit_type, typeOf, ht]
  · intro fmt opts fname hf hfmt ht
    rw [madeDataTypes, main_complete_managers env prog fmt opts fname hf]
    rcases hfmt with hfmt | hfmt <;> subst hfmt <;>
      simp [managerFor, ManagerCall.data_type?, finalLocals_data_type, typeOf, ht]

/-- Witness of C5 (amended): `-t float` is refused and `-t short` gives
`NVCOMP_TYPE_SHORT`. -/
theorem type_option_values_witness :
    (main sampleEnv ["benchmark_hlif", "lz4", "-f", "data.bin", "-t", "float"]).usageExit
      = true ∧
    madeDataTypes sampleEnv ["benchmark_hlif", "lz4", "-f", "data.bin", "-t", "short"]
      = [some .NVCOMP_TYPE_SHORT] ∧
    madeDataTypes sampleEnv ["benchmark_hlif", "bitcomp", "-f", "data.bin"]
      = [some .NVCOMP_TYPE_CHAR] :=
  ⟨(type_option_values sampleEnv "benchmark_hlif").2.2.2.1 "lz4" [.filename false "data.bin"]
      "-t" "float" [] (by decide) (by decide),
   (type_option_values sampleEnv "benchmark_hlif").2.2.2.2.1 .lz4
      [.filename false "data.bin", .type false .NVCOMP_TYPE_SHORT] "data.bin"
      .NVCOMP_TYPE_SHORT rfl (by decide) rfl,
   (type_option_values sampleEnv "benchmark_hlif").2.2.2.2.2 .bitcomp
      [.filename false "data.bin"] "data.bin" rfl (by decide) rfl⟩

/-- C10: for every accepted argument vector and every format, the one manager `main`
constructs is given the checksum mode `NoComputeNoVerify`; two accepted runs, whatever
their formats and options, construct managers with the same checksum mode. -/
theorem checksum_mode_fixed (env : Env) (prog : String) (fmt1 fmt2 : Format)
    (opts1 opts2 : List CliOption) (fname1 fname2 : String)
    (h1 : lastValue selFilename opts1 = some fname1)
    (h2 : lastValue selFilename opts2 = some fname2) :
    madePolicies env (prog :: fmt1.name :: renderAll opts1) = [.NoComputeNoVerify] ∧
    madePolicies env (prog :: fmt2.name :: renderAll opts2) =
      madePolicies env (prog :: fmt1.name :: renderAll opts1) := by
  have key : ∀ (fmt : Format) (opts : List CliOption) (fname : String),
      lastValue selFilename opts = some fname →
      madePolicies env (prog :: fmt.name :: renderAll opts) = [.NoComputeNoVerify] := by
    intro fmt opts fname h
    rw [madePolicies, main_complete_managers env prog fmt opts fname h]
    simp [managerFor_policy]
  exact ⟨key fmt1 opts1 fname1 h1, by rw [key fmt1 opts1 fname1 h1, key fmt2 opts2 fname2 h2]⟩

/-- Witness of C10: `lz4 -f a.bin` and `cascaded -f b.bin -c 512 -t int -m`. -/
theorem checksum_mode_fixed_witness :
    (lastValue selFilename [.filename false "a.bin"] = some "a.bin" ∧
     lastValue selFilename [.filename false "b.bin", .chunk_size false "512",
       .type false .NVCOMP_TYPE_INT, .memory false] = some "b.bin") ∧
    madePolicies sampleEnv ["benchmark_hlif", "lz4", "-f", "a.bin"] = [.NoComputeNoVerify] ∧
    madePolicies sampleEnv
        ["benchmark_hlif", "cascaded", "-f", "b.bin", "-c", "512", "-t", "int", "-m"] =
      madePolicies sampleEnv ["benchmark_hlif", "lz4", "-f", "a.bin"] :=
  ⟨⟨rfl, rfl⟩, checksum_mode_fixed sampleEnv "benchmark_hlif" .lz4 .cascaded
    [.filename false "a.bin"]
    [.filename false "b.bin", .chunk_size false "512", .type false .NVCOMP_TYPE_INT,
      .memory false] "a.bin" "b.bin" rfl rfl⟩

/-! ### Lemmas on the Snappy manager -/

theorem new_eq_of_allocations (lib : SnappyLib) (dev : Device) (n : Nat)
    (stream : cudaStream_t) (id : Int) (hn : 0 < n) (hp : dev.pinned_left ≠ 0)
    (hd : dev.device_left ≠ 0) :
    SnappyBatchManager.new lib dev n stream id =
      (.ok { uncomp_chunk_size := n
             user_stream := stream
             device_id := id
             max_comp_chunk_size := lib.nvcompBatchedSnappyCompressGetMaxOutputChunkSize n
             scratch_buffer := dev.next + 1
             ix_chunk := 0
             max_comp_ctas := lib.snappyHlifCompMaxBlockOccupancy id
             max_decomp_ctas := lib.snappyHlifDecompMaxBlockOccupancy id
             format_spec := dev.next },
       { pinned := dev.next :: dev.pinned
         device := (dev.next + 1) :: dev.device
         next := dev.next + 2
         pinned_left := dev.pinned_left - 1
         device_left := dev.device_left - 1 }) := by
  simp [SnappyBatchManager.new, BatchManager.init, hn, gpuErrchk, cudaHostAlloc, hp,
    BatchManager.finish_init, cudaMalloc, hd,
    SnappyBatchManager.compute_max_compressed_chunk_size,
    SnappyBatchManager.compute_compression_max_block_occupancy,
    SnappyBatchManager.compute_decompression_max_block_occupancy]

theorem new_error_of_zero (lib : SnappyLib) (dev : Device) (stream : cudaStream_t)
    (id : Int) :
    SnappyBatchManager.new lib dev 0 stream id = (.error .cudaErrorInvalidValue, dev) := by
  simp [SnappyBatchManager.new, BatchManager.init]

theorem new_error_of_no_pinned (lib : SnappyLib) (dev : Device) (n : Nat)
    (stream : cudaStream_t) (id : Int) (hn : 0 < n) (hp : dev.pinned_left = 0) :
    SnappyBatchManager.new lib dev n stream id = (.error .cudaErrorMemoryAllocation, dev) := by
  simp [SnappyBatchManager.new, BatchManager.init, hn, gpuErrchk, cudaHostAlloc, hp]

theorem new_error_of_no_device (lib : SnappyLib) (dev : Device) (n : Nat)
    (stream : cudaStream_t) (id : Int) (hn : 0 < n) (hp : dev.pinned_left ≠ 0)
    (hd : dev.device_left = 0) :
    SnappyBatchManager.new lib dev n stream id =
      (.error .cudaErrorMemoryAllocation,
       { dev with pinned := dev.next :: dev.pinned, next := dev.next + 1,
                  pinned_left := dev.pinned_left - 1 }) := by
  simp [SnappyBatchManager.new, BatchManager.init, hn, gpuErrchk, cudaHostAlloc, hp,
    BatchManager.finish_init, cudaMalloc, hd,
    SnappyBatchManager.compute_max_compressed_chunk_size,
    SnappyBatchManager.compute_compression_max_block_occupancy,
    SnappyBatchManager.compute_decompression_max_block_occupancy]

theorem new_ok_fields (lib : SnappyLib) (dev : Device) (n : Nat) (stream : cudaStream_t)
    (id : Int) (m : SnappyBatchManager)
    (h : (SnappyBatchManager.new lib dev n stream id).1 = .ok m) :
    m.uncomp_chunk_size = n ∧
      m.max_comp_chunk_size = lib.nvcompBatchedSnappyCompressGetMaxOutputChunkSize n := by
  rcases Nat.eq_zero_or_pos n with hn | hn
  · subst hn
    rw [new_error_of_zero] at h
    cases h
  · by_cases hp : dev.pinned_left = 0
    · rw [new_error_of_no_pinned lib dev n stream id hn hp] at h
      cases h
    · by_cases hd : dev.device_left = 0
      · rw [new_error_of_no_device lib dev n stream id hn hp hd] at h
        cases h
      · rw [new_eq_of_allocations lib dev n stream id hn hp hd] at h
        cases h
        exact ⟨rfl, rfl⟩

/-- C7: for the Snappy manager, after a successful construction with chunk size `n` the
field `max_comp_chunk_size` equals `nvcompBatchedSnappyCompressGetMaxOutputChunkSize` at
the manager's `uncomp_chunk_size` (which is `n`) and the default options; two managers
built with the same chunk size, on whatever allocation state, stream and device, hold the
same bound; `compute_max_compressed_chunk_size` yields the same value on any two managers
with the same `uncomp_chunk_size` and leaves the manager unchanged; and
`do_batch_compress` passes the stored field to its dispatch, whatever the field holds,
and leaves the manager unchanged. -/
theorem max_comp_chunk_size_fixed (lib : SnappyLib) (dev1 dev2 : Device) (n : Nat)
    (stream1 stream2 : cudaStream_t) (id1 id2 : Int) (m1 m2 : SnappyBatchManager)
    (h1 : (SnappyBatchManager.new lib dev1 n stream1 id1).1 = .ok m1)
    (h2 : (SnappyBatchManager.new lib dev2 n stream2 id2).1 = .ok m2) :
    (m1.uncomp_chunk_size = n ∧
      m1.max_comp_chunk_size =
        lib.nvcompBatchedSnappyCompressGetMaxOutputChunkSize m1.uncomp_chunk_size) ∧
    m1.max_comp_chunk_size = m2.max_comp_chunk_size ∧
    (∀ a b : SnappyBatchManager, a.uncomp_chunk_size = b.uncomp_chunk_size →
      (a.compute_max_compressed_chunk_size lib).1 =
        (b.compute_max_compressed_chunk_size lib).1) ∧
    (∀ a : SnappyBatchManager, (a.compute_max_compressed_chunk_size lib).2 = a) ∧
    (∀ (a : SnappyBatchManager) (common_header decomp_buffer : Ptr)
      (decomp_buffer_size : Nat) (comp_data_buffer : Ptr) (num_chunks : Nat)
      (comp_chunk_offsets comp_chunk_sizes output_status : Ptr),
      (a.do_batch_compress common_header decomp_buffer decomp_buffer_size comp_data_buffer
          num_chunks comp_chunk_offsets comp_chunk_sizes output_status).1.map
        KernelCall.max_comp_chunk_size? = [some a.max_comp_chunk_size] ∧
      (a.do_batch_compress common_header decomp_buffer decomp_buffer_size comp_data_buffer
          num_chunks comp_chunk_offsets comp_chunk_sizes output_status).2 = a) := by
  have f1 := new_ok_fields lib dev1 n stream1 id1 m1 h1
  have f2 := new_ok_fields lib dev2 n stream2 id2 m2 h2
  refine ⟨⟨f1.1, ?_⟩, ?_, ?_, ?_, ?_⟩
  · rw [f1.2, f1.1]
  · rw [f1.2, f2.2]
  · intro a b hab
    simp [SnappyBatchManager.compute_max_compressed_chunk_size, hab]
  · intro a
    rfl
  · intro a _ _ _ _ _ _ _ _
    exact ⟨rfl, rfl⟩

/-- Witness of C7: two managers with chunk size 65536, built on different allocation
states, streams and devices, both hold the bound of the sample library. -/
theorem max_comp_chunk_size_fixed_witness :
    ((SnappyBatchManager.new sampleLib (sampleDevice 1 1) 65536 0 0).1 =
        .ok { uncomp_chunk_size := 65536, user_stream := 0, device_id := 0,
              max_comp_chunk_size := 76490, scratch_buffer := 4097, ix_chunk := 0,
              max_comp_ctas := 8, max_decomp_ctas := 8, format_spec := 4096 } ∧
      (SnappyBatchManager.new sampleLib (sampleDevice 3 2) 65536 5 1).1 =
        .ok { uncomp_chunk_size := 65536, user_stream := 5, device_id := 1,
              max_comp_chunk_size := 76490, scratch_buffer := 4097, ix_chunk := 0,
              max_comp_ctas := 8, max_decomp_ctas := 8, format_spec := 4096 }) ∧
    (76490 : Nat) = sampleLib.nvcompBatchedSnappyCompressGetMaxOutputChunkSize 65536 :=
  ⟨⟨rfl, rfl⟩, (max_comp_chunk_size_fixed sampleLib (sampleDevice 1 1) (sampleDevice 3 2)
    65536 0 5 0 1 _ _ rfl rfl).1.2⟩

/-- C8: for every manager state (whatever its occupancy limits) and every call,
`do_batch_compress` and `do_batch_decompress` each issue exactly one kernel dispatch; it
receives the caller's `num_chunks`, buffers, offset, size and status arrays unchanged and
the manager's `uncomp_chunk_size` and `user_stream`; on compress the total-size output is
the `comp_data_size` member of the common header that was passed in. -/
theorem single_full_dispatch (m : SnappyBatchManager) (common_header decomp_buffer : Ptr)
    (decomp_buffer_size : Nat) (comp_data_buffer : Ptr) (num_chunks : Nat)
    (comp_chunk_offsets comp_chunk_sizes output_status : Ptr) :
    ((m.do_batch_compress common_header decomp_buffer decomp_buffer_size comp_data_buffer
        num_chunks comp_chunk_offsets comp_chunk_sizes output_status).1 =
      [.snappyHlifBatchCompress common_header decomp_buffer decomp_buffer_size
        comp_data_buffer m.scratch_buffer m.uncomp_chunk_size
        (.comp_data_size common_header) m.ix_chunk num_chunks m.max_comp_chunk_size
        comp_chunk_offsets comp_chunk_sizes m.max_comp_ctas m.user_stream output_status] ∧
     (m.do_batch_compress common_header decomp_buffer decomp_buffer_size comp_data_buffer
        num_chunks comp_chunk_offsets comp_chunk_sizes output_status).1.map
        KernelCall.num_chunks = [num_chunks]) ∧
    ((m.do_batch_decompress comp_data_buffer decomp_buffer num_chunks comp_chunk_offsets
        comp_chunk_sizes output_status).1 =
      [.snappyHlifBatchDecompress comp_data_buffer decomp_buffer m.uncomp_chunk_size
        m.ix_chunk num_chunks comp_chunk_offsets comp_chunk_sizes m.max_decomp_ctas
        m.user_stream output_status] ∧
     (m.do_batch_decompress comp_data_buffer decomp_buffer num_chunks comp_chunk_offsets
        comp_chunk_sizes output_status).1.map KernelCall.num_chunks = [num_chunks]) :=
  ⟨⟨rfl, rfl⟩, ⟨rfl, rfl⟩⟩

/-- C9 (what the code does): on a machine where the pinned allocation succeeds and the
scratch allocation of `finish_init` fails, the constructor ends with an error and the
pinned block 4096 it allocated is still live, with no manager to own it; on a machine
where both allocations succeed, the manager owns block 4096 and its destruction succeeds
and leaves no pinned block live. -/
theorem format_spec_left_allocated :
    SnappyBatchManager.new sampleLib (sampleDevice 1 0) 65536 0 0 =
      (.error .cudaErrorMemoryAllocation,
       { pinned := [4096], device := [], next := 4097, pinned_left := 0, device_left := 0 }) ∧
    (SnappyBatchManager.new sampleLib (sampleDevice 1 1) 65536 0 0).2.pinned = [4096] ∧
    ∃ m, (SnappyBatchManager.new sampleLib (sampleDevice 1 1) 65536 0 0).1 = .ok m ∧
      m.format_spec = 4096 ∧
      (SnappyBatchManager.destroy
        (SnappyBatchManager.new sampleLib (sampleDevice 1 1) 65536 0 0).2 m).1 = .ok () ∧
      (SnappyBatchManager.destroy
        (SnappyBatchManager.new sampleLib (sampleDevice 1 1) 65536 0 0).2 m).2.pinned = [] :=
  ⟨rfl, rfl, _, rfl, rfl, rfl, rfl⟩

end Nvcomp
